import Mathlib

/-!
A shallow embedding of the Gopher crawler (`gopher_crawler.py`) and proofs
about its specification.  Python strings are modelled as `List Char`
(`Str` below), byte strings as `List Nat` with entries below 256, Python
ints as `Int`, and the process-wide mutable state (`stats`, the global
`visited_paths` set) as explicit state threaded through the functions.
Network and filesystem effects are abstracted by an environment of oracles
(`Env`); fatal Python exceptions are modelled with `Except PyErr`.
-/

/-- Python strings are modelled as lists of characters. -/
abbrev Str := List Char

/-- Character list of a Lean string literal (notation helper). -/
def chs (s : String) : Str := s.data

/-- Whitespace characters stripped by Python `str.strip()` and tolerated by
`int()` (the ASCII whitespace range plus the Unicode space characters). -/
def isPySpace (c : Char) : Bool :=
  c.toNat = 0x20 || (0x09 ≤ c.toNat && c.toNat ≤ 0x0D) ||
  (0x1C ≤ c.toNat && c.toNat ≤ 0x1F) || c.toNat = 0x85 || c.toNat = 0xA0 ||
  c.toNat = 0x1680 || (0x2000 ≤ c.toNat && c.toNat ≤ 0x200A) ||
  c.toNat = 0x2028 || c.toNat = 0x2029 || c.toNat = 0x202F ||
  c.toNat = 0x205F || c.toNat = 0x3000

/-- Python `str.strip()`: drop whitespace from both ends. -/
def pyStrip (s : Str) : Str :=
  ((s.dropWhile isPySpace).reverse.dropWhile isPySpace).reverse

/-- Python `str.split('\t')`: split on every tab, keeping empty fields;
the empty string yields `[""]`. -/
def splitTab : Str → List Str
  | [] => [[]]
  | c :: cs =>
    if c = '\t' then [] :: splitTab cs
    else
      match splitTab cs with
      | f :: rest => (c :: f) :: rest
      | [] => [[c]]

/-- Line-boundary characters of Python `str.splitlines()`
(LF, VT, FF, CR, FS, GS, RS, NEL, LS, PS; CRLF is handled as one break). -/
def isLineBreak (c : Char) : Bool :=
  c.toNat = 0x0A || c.toNat = 0x0B || c.toNat = 0x0C || c.toNat = 0x0D ||
  c.toNat = 0x1C || c.toNat = 0x1D || c.toNat = 0x1E || c.toNat = 0x85 ||
  c.toNat = 0x2028 || c.toNat = 0x2029

/-- Worker for `splitlines`: `acc` is the current line, reversed. -/
def splitlinesAux : Str → Str → List Str
  | [], acc => if acc.isEmpty then [] else [acc.reverse]
  | '\r' :: '\n' :: cs, acc => acc.reverse :: splitlinesAux cs []
  | c :: cs, acc =>
    if isLineBreak c then acc.reverse :: splitlinesAux cs []
    else splitlinesAux cs (c :: acc)

/-- Python `str.splitlines()`: split at line boundaries, no trailing empty
line for a trailing terminator. -/
def splitlines (s : Str) : List Str := splitlinesAux s []

/-- Worker for strict UTF-8 decoding, one byte at a time.  `need` is the
number of continuation bytes still expected, `acc` the partial code point,
`mincp` the smallest code point the current sequence is allowed to encode
(rejecting overlong forms).  Surrogates and code points above `0x10FFFF`
are rejected, as in Python's strict `bytes.decode('utf-8')`. -/
def utf8Aux : List Nat → Nat → Nat → Nat → Option (List Char)
  | [], 0, _, _ => some []
  | [], _ + 1, _, _ => none
  | b :: rest, 0, _, _ =>
    if b < 0x80 then (utf8Aux rest 0 0 0).map (fun cs => Char.ofNat b :: cs)
    else if b < 0xC2 then none
    else if b ≤ 0xDF then utf8Aux rest 1 (b - 0xC0) 0x80
    else if b ≤ 0xEF then utf8Aux rest 2 (b - 0xE0) 0x800
    else if b ≤ 0xF4 then utf8Aux rest 3 (b - 0xF0) 0x10000
    else none
  | b :: rest, need + 1, acc, mincp =>
    if 0x80 ≤ b ∧ b ≤ 0xBF then
      let acc2 := acc * 64 + (b - 0x80)
      if need = 0 then
        if mincp ≤ acc2 ∧ ¬ (0xD800 ≤ acc2 ∧ acc2 ≤ 0xDFFF) ∧ acc2 ≤ 0x10FFFF then
          (utf8Aux rest 0 0 0).map (fun cs => Char.ofNat acc2 :: cs)
        else none
      else utf8Aux rest need acc2 mincp
    else none

/-- Python `bytes.decode('utf-8')` (strict): `none` models the
`UnicodeDecodeError` case. -/
def utf8Decode (bs : List Nat) : Option (List Char) := utf8Aux bs 0 0 0

/-- Python `bytes.decode('iso-8859-1')`: total on bytes, each byte maps to
the code point of the same value. -/
def latin1Decode (bs : List Nat) : List Char := bs.map Char.ofNat

/-- Digit run after its first character for Python `int()`: ASCII digits
with single underscores allowed between digits. -/
def digitsRest : Str → Bool
  | [] => true
  | '_' :: c :: rest => c.isDigit && digitsRest rest
  | ['_'] => false
  | c :: rest => c.isDigit && digitsRest rest

/-- Digit run accepted by Python `int()` after sign removal: nonempty ASCII
digits, with single underscores allowed between digits. -/
def digitsOk : Str → Bool
  | [] => false
  | c :: rest => c.isDigit && digitsRest rest

/-- Numeric value of a digit-and-underscore run. -/
def digitsVal (s : Str) : Nat :=
  (s.filter (fun c => c ≠ '_')).foldl (fun a c => a * 10 + (c.toNat - 48)) 0

/-- Python `int(str)`: strip whitespace, optional sign, base-10 digits;
`none` models the `ValueError` case. -/
def pyInt (s : Str) : Option Int :=
  match pyStrip s with
  | '+' :: rest => if digitsOk rest then some (Int.ofNat (digitsVal rest)) else none
  | '-' :: rest => if digitsOk rest then some (-(Int.ofNat (digitsVal rest))) else none
  | t => if digitsOk t then some (Int.ofNat (digitsVal t)) else none

/-- Decidable equality for `Except`, used to evaluate concrete runs. -/
instance {ε α : Type} [DecidableEq ε] [DecidableEq α] : DecidableEq (Except ε α) := fun x y =>
  match x, y with
  | .ok a, .ok b =>
    if h : a = b then isTrue (by rw [h]) else isFalse (by intro hh; cases hh; exact h rfl)
  | .error e, .error f =>
    if h : e = f then isTrue (by rw [h]) else isFalse (by intro hh; cases hh; exact h rfl)
  | .ok _, .error _ => isFalse (by intro hh; cases hh)
  | .error _, .ok _ => isFalse (by intro hh; cases hh)

/-- Uncaught Python exceptions that can escape the crawler's functions. -/
inductive PyErr where
  /-- `IndexError` from `parts[0][0]` on an empty first field. -/
  | indexError
  /-- `UnicodeDecodeError` from `response.decode('utf-8')` in `process_file`. -/
  | unicodeDecodeError
  /-- `RecursionError`: models exhaustion of the recursion budget (fuel). -/
  | recursionError
deriving DecidableEq, Repr

/-- One parsed directory-listing row: the tuple
`(item_type, display_string, selector, host, port)` of `parse_directory`. -/
structure Entry where
  item_type : Char
  display_string : Str
  selector : Str
  host : Str
  port : Int
deriving DecidableEq, Repr

/-- Decoding step of `parse_directory`: UTF-8, falling back to ISO-8859-1. -/
def decodeListing (response : List Nat) : Str :=
  match utf8Decode response with
  | some s => s
  | none => latin1Decode response

/-- Per-line loop body of `parse_directory` over the already split lines.
A line with fewer than 4 tab-separated fields is skipped; an empty first
field raises `IndexError` (`parts[0][0]`); a non-numeric port
(`ValueError`) or a port equal to 0 skips the line. -/
def parseLines : List Str → Except PyErr (List Entry)
  | [] => .ok []
  | line :: rest =>
    match splitTab line with
    | p0 :: p1 :: p2 :: p3 :: _ =>
      match p0 with
      | [] => .error .indexError
      | t :: d =>
        match pyInt p3 with
        | none => parseLines rest
        | some port =>
          if port = 0 then parseLines rest
          else
            match parseLines rest with
            | .error e => .error e
            | .ok tail =>
              .ok ({ item_type := t, display_string := pyStrip d,
                     selector := p1, host := p2, port := port } :: tail)
    | _ => parseLines rest

/-- `parse_directory(response)`: decode, split into lines, parse each line. -/
def parse_directory (response : List Nat) : Except PyErr (List Entry) :=
  parseLines (splitlines (decodeListing response))

/-- Specification-level view of one line used in the theorems: the entry a
line contributes when the parser does not raise on it. -/
def lineEntry (line : Str) : Option Entry :=
  match splitTab line with
  | p0 :: p1 :: p2 :: p3 :: _ =>
    match p0 with
    | [] => none
    | t :: d =>
      match pyInt p3 with
      | none => none
      | some port =>
        if port = 0 then none
        else some { item_type := t, display_string := pyStrip d,
                    selector := p1, host := p2, port := port }
  | _ => none

/-- A line on which `parse_directory` raises `IndexError`: at least 4
tab-separated fields but an empty first field. -/
def crashLine (line : Str) : Bool :=
  match splitTab line with
  | [] :: _ :: _ :: _ :: _ => true
  | _ => false

/-- A size slot of the stats record: a byte count, or the initial
`float('inf')` sentinel of the `smallest_*` slots. -/
inductive SizeVal where
  | num (n : Nat)
  | inf
deriving DecidableEq, Repr

/-- `file_size < slot` (the strict `<` of the smallest-file updates;
every number is below `inf`). -/
def sizeLt (n : Nat) : SizeVal → Bool
  | .inf => true
  | .num m => n < m

/-- `file_size > slot` (the strict `>` of the largest-file updates;
nothing is above `inf`). -/
def sizeGt (n : Nat) : SizeVal → Bool
  | .inf => false
  | .num m => n > m

/-- The `stats` dictionary of `crawl_gopher`.  Python sets
(`all_directories`) and dicts (`external_servers`) are modelled as lists
without duplicate keys; dict insertion appends. -/
structure Stats where
  dirs : Nat
  files : Nat
  text_files : List (Str × Nat)
  binary_files : List (Str × Nat)
  smallest_text : Str × SizeVal
  largest_text : Str × SizeVal
  smallest_binary : Str × SizeVal
  largest_binary : Str × SizeVal
  smallest_text_content : Str
  external_servers : List (Str × Bool)
  errors : Nat
  error_details : List (Str × Str)
  all_files : List (Str × Nat)
  all_directories : List Str
deriving DecidableEq, Repr

/-- The fresh `stats` dictionary built when `crawl_gopher` is called with
`stats=None`. -/
def initStats : Stats where
  dirs := 0
  files := 0
  text_files := []
  binary_files := []
  smallest_text := ([], .inf)
  largest_text := ([], .num 0)
  smallest_binary := ([], .inf)
  largest_binary := ([], .num 0)
  smallest_text_content := []
  external_servers := []
  errors := 0
  error_details := []
  all_files := []
  all_directories := []

/-- `stats['errors'] += 1` together with
`stats['error_details'].append((selector, msg))`. -/
def recordError (s : Stats) (selector msg : Str) : Stats :=
  { s with errors := s.errors + 1, error_details := s.error_details ++ [(selector, msg)] }

/-- Decimal rendering of a Python int, as used by f-strings. -/
def intChars (i : Int) : Str :=
  if i < 0 then '-' :: Nat.toDigits 10 (-i).toNat else Nat.toDigits 10 i.toNat

/-- The canonical key `f"{host}:{port}{selector}"`. -/
def pathKey (host : Str) (port : Int) (selector : Str) : Str :=
  host ++ ':' :: (intChars port ++ selector)

/-- The external-server key `f"{host}:{port}"`. -/
def endpointKey (host : Str) (port : Int) : Str :=
  host ++ ':' :: intChars port

/-- The oversize error message `f"Data exceeded {max_size} bytes, skipping file."`. -/
def oversizeMsg (max_size : Nat) : Str :=
  chs "Data exceeded " ++ Nat.toDigits 10 max_size ++ chs " bytes, skipping file."

/-- The `ConnectionRefusedError` message. -/
def refusedMsg : Str := chs "Connection refused."

/-- The `socket.timeout` message. -/
def timeoutMsg : Str := chs "Connection timed out."

/-- The message `crawl_gopher` records when a listing fetch returns `None`. -/
def noResponseMsg : Str := chs "Failed to receive any response from server."

/-- The message recorded for an unknown item type. -/
def unknownTypeMsg (t : Char) : Str :=
  chs "Unknown item type encountered: " ++ [t]

/-- Outcome of one network exchange, as distinguished by
`gopher_request`'s exception handlers: a full response byte stream ended
by peer close, a refused connection, or a timeout. -/
inductive NetResult where
  | ok (data : List Nat)
  | refused
  | timeout
deriving Repr

/-- The environment of I/O oracles: `net` answers one request
`(host, port, selector)`; `probe` answers `check_server_active(host, port)`. -/
structure Env where
  net : Str → Int → Str → NetResult
  probe : Str → Int → Bool

/-- The default `max_size` of `gopher_request` (1 MiB), used by every call
site in the crawler. -/
def MAXSIZE : Nat := 1048576

/-- `gopher_request(host, port, selector, stats, timeout, max_size)`.
The receive loop accumulates chunks until peer close; if the accumulated
response ever exceeds `max_size` — which happens exactly when the full
stream is longer than `max_size` — it records one error and returns
`None`.  Refused and timed-out connections likewise record one error and
return `None`. -/
def gopher_request (net : Str → Int → Str → NetResult) (host : Str) (port : Int)
    (selector : Str) (stats : Stats) (max_size : Nat) : Option (List Nat) × Stats :=
  match net host port selector with
  | .ok data =>
    if data.length > max_size then
      (none, recordError stats selector (oversizeMsg max_size))
    else (some data, stats)
  | .refused => (none, recordError stats selector refusedMsg)
  | .timeout => (none, recordError stats selector timeoutMsg)

/-- Python `str.replace('_', '/')`. -/
def replaceUnder (s : Str) : Str :=
  s.map (fun c => if c = '_' then '/' else c)

/-- The filesystem-safe name `process_file` writes to: last 100 characters
of the selector, combined with host and port, `'/'` replaced by `'_'`.
The write itself is an external effect and is not modelled further. -/
def safe_file_path (item : Entry) : Str :=
  (pathKey item.host item.port (item.selector.drop (item.selector.length - 100))).map
    (fun c => if c = '/' then '_' else c)

/-- `process_file(item, stats, response, is_binary)`: update the record
lists, extrema and counters.  For a text file, `response.decode('utf-8')`
may raise `UnicodeDecodeError`, modelled as `.error`. -/
def process_file (item : Entry) (stats : Stats) (response : List Nat)
    (is_binary : Bool) : Except PyErr Stats :=
  let original_file_path := pathKey item.host item.port item.selector
  let file_size := response.length
  -- The source performs the updates sequentially on the dict; since each
  -- update writes a distinct key and each comparison reads a key no
  -- earlier update wrote, the sequence is equal to this single
  -- simultaneous update.  Lines 218-220 (the '_' → '/' rebinding of the
  -- path, the all_files append and the file-counter increment) are shared
  -- by both branches.
  if is_binary then
    .ok { stats with
          binary_files := stats.binary_files ++ [(original_file_path, file_size)],
          smallest_binary := if sizeLt file_size stats.smallest_binary.2 then
              (original_file_path, .num file_size) else stats.smallest_binary,
          largest_binary := if sizeGt file_size stats.largest_binary.2 then
              (original_file_path, .num file_size) else stats.largest_binary,
          all_files := stats.all_files ++ [(replaceUnder original_file_path, file_size)],
          files := stats.files + 1 }
  else
    match utf8Decode response with
    | none => .error .unicodeDecodeError
    | some response_text =>
      .ok { stats with
            text_files := stats.text_files ++ [(original_file_path, file_size)],
            smallest_text := if sizeLt file_size stats.smallest_text.2 then
                (original_file_path, .num file_size) else stats.smallest_text,
            smallest_text_content := if sizeLt file_size stats.smallest_text.2 then
                response_text else stats.smallest_text_content,
            largest_text := if sizeGt file_size stats.largest_text.2 then
                (original_file_path, .num file_size) else stats.largest_text,
            all_files := stats.all_files ++ [(replaceUnder original_file_path, file_size)],
            files := stats.files + 1 }

/-- Ghost trace events: one per network interaction, recording the
canonical key.  Instrumentation only — the events never influence control
flow; they exist so that at-most-once properties can be stated. -/
inductive Event where
  /-- a listing fetch issued by `crawl_gopher` itself -/
  | listFetch (key : Str)
  /-- a file-body fetch issued for a type '0' or '9' entry -/
  | fileFetch (key : Str)
  /-- a `check_server_active` probe of an external endpoint -/
  | probeCall (key : Str)
deriving DecidableEq, Repr

/-- The crawl-wide mutable state: the `stats` dictionary, the process-wide
`visited_paths` set, and the ghost event trace. -/
structure CrawlSt where
  stats : Stats
  visited : List Str
  tr : List Event
deriving DecidableEq, Repr

/-- The `for item in items` loop body of `crawl_gopher`.  `recur` is the
recursive call (with `original_host` and the remaining fuel already
fixed); `host`/`port` are the current traversal level's endpoint. -/
def items_loop (env : Env) (recur : Str → Int → Str → CrawlSt → Except PyErr CrawlSt)
    (host : Str) (port : Int) (original_host : Str) :
    List Entry → CrawlSt → Except PyErr CrawlSt
  | [], st => .ok st
  | item :: rest, st =>
    if item.host ≠ original_host ∨ item.port ≠ port then
      -- external server: probe it once, cache the result, do not recurse
      let server_key := endpointKey item.host item.port
      let st1 :=
        if (List.lookup server_key st.stats.external_servers).isNone then
          { st with
            stats := { st.stats with
              external_servers := st.stats.external_servers ++
                [(server_key, env.probe item.host item.port)] },
            tr := st.tr ++ [Event.probeCall server_key] }
        else st
      items_loop env recur host port original_host rest st1
    else
      -- here item.host = original_host and item.port = port, so the
      -- source's re-check `new_host == original_host and new_port == port`
      -- is always true
      let full_path := pathKey item.host item.port item.selector
      if item.item_type = '1' then
        if full_path ∈ st.stats.all_directories then
          items_loop env recur host port original_host rest st
        else
          let st1 := { st with stats := { st.stats with
            dirs := st.stats.dirs + 1,
            all_directories := full_path :: st.stats.all_directories } }
          match recur item.host item.port item.selector st1 with
          | .error e => .error e
          | .ok st2 => items_loop env recur host port original_host rest st2
      else if item.item_type = '0' ∨ item.item_type = '9' then
        let st1 := { st with tr := st.tr ++ [Event.fileFetch full_path] }
        let pr := gopher_request env.net item.host item.port item.selector st1.stats MAXSIZE
        let st2 := { st1 with stats := pr.2 }
        match pr.1 with
        | none => items_loop env recur host port original_host rest st2
        | some file_response =>
          match process_file item st2.stats file_response (item.item_type = '9') with
          | .error e => .error e
          | .ok s3 => items_loop env recur host port original_host rest { st2 with stats := s3 }
      else if item.item_type = 'i' then
        items_loop env recur host port original_host rest st
      else
        items_loop env recur host port original_host rest
          { st with stats := recordError st.stats item.selector (unknownTypeMsg item.item_type) }

/-- One invocation of `crawl_gopher(host, port, selector, stats,
original_host)` with its recursion bounded by `fuel` (running out models
Python's `RecursionError`).  The visited check, the listing fetch, the
fetch-failure error record, the parse, and the per-entry loop. -/
def crawl_go (env : Env) : Nat → Str → Int → Str → Str → CrawlSt → Except PyErr CrawlSt
  | 0, _, _, _, _, _ => .error .recursionError
  | Nat.succ fuel, host, port, selector, original_host, st =>
    let path := pathKey host port selector
    if path ∈ st.visited then .ok st
    else
      let st1 := { st with visited := path :: st.visited, tr := st.tr ++ [Event.listFetch path] }
      let pr := gopher_request env.net host port selector st1.stats MAXSIZE
      let st2 := { st1 with stats := pr.2 }
      match pr.1 with
      | none => .ok { st2 with stats := recordError st2.stats selector noResponseMsg }
      | some response =>
        match parse_directory response with
        | .error e => .error e
        | .ok items =>
          items_loop env (fun h p s st' => crawl_go env fuel h p s original_host st')
            host port original_host items st2

/-- A top-level `crawl_gopher(host, port)` call in a fresh process:
empty selector, fresh stats, `original_host = host`, empty global
`visited_paths`. -/
def crawl_gopher (env : Env) (fuel : Nat) (host : Str) (port : Int) :
    Except PyErr CrawlSt :=
  crawl_go env fuel host port [] host { stats := initStats, visited := [], tr := [] }

/-- The keys of the listing fetches in a trace. -/
def listKeys (tr : List Event) : List Str :=
  tr.filterMap (fun e => match e with | .listFetch k => some k | _ => none)

/-- The keys of the file-body fetches in a trace. -/
def fileKeys (tr : List Event) : List Str :=
  tr.filterMap (fun e => match e with | .fileFetch k => some k | _ => none)

/-- The keys of the liveness probes in a trace. -/
def probeKeys (tr : List Event) : List Str :=
  tr.filterMap (fun e => match e with | .probeCall k => some k | _ => none)

/-- The crawl-wide invariant: the error counter equals the length of the
error log; every listing fetch was of a path marked visited and no path
was listing-fetched twice; every probed endpoint is cached in the
external-server map and no endpoint was probed twice; the directory
counter equals the number of distinct counted directory paths. -/
def CrawlInv (st : CrawlSt) : Prop :=
  st.stats.errors = st.stats.error_details.length ∧
  (∀ k ∈ listKeys st.tr, k ∈ st.visited) ∧
  (listKeys st.tr).Nodup ∧
  (∀ k ∈ probeKeys st.tr, k ∈ st.stats.external_servers.map Prod.fst) ∧
  (probeKeys st.tr).Nodup ∧
  st.stats.dirs = st.stats.all_directories.length ∧
  st.stats.all_directories.Nodup

/-- The crawl state only grows: visited paths, cached external endpoints
and counted directories are never removed. -/
def CrawlMono (st st' : CrawlSt) : Prop :=
  st.visited ⊆ st'.visited ∧
  st.stats.external_servers.map Prod.fst ⊆ st'.stats.external_servers.map Prod.fst ∧
  st.stats.all_directories ⊆ st'.stats.all_directories

/-- Bytes of an ASCII Lean string literal (test-input helper). -/
def toBytes (s : String) : List Nat := (chs s).map Char.toNat

/-- The initial crawl state of a fresh process. -/
def initSt : CrawlSt := { stats := initStats, visited := [], tr := [] }

/-- Environment for the oversize-listing scenario: the root listing fetch
answers with a stream one byte longer than `max_size`; everything else is
refused. -/
def envC1 : Env where
  net := fun _ _ s => if s = [] then .ok (List.replicate (MAXSIZE + 1) 0) else .refused
  probe := fun _ _ => false

/-- Environment for the decode-failure scenario: the root listing has a
text entry `/b` whose body is the invalid UTF-8 byte `0xFF`, followed by a
sibling text entry `/c` with a valid body. -/
def envC2 : Env where
  net := fun h p s =>
    if h = chs "h" ∧ p = 70 ∧ s = [] then
      .ok (toBytes "0f\t/b\th\t70\n0g\t/c\th\t70")
    else if h = chs "h" ∧ p = 70 ∧ s = chs "/b" then .ok [0xFF]
    else if h = chs "h" ∧ p = 70 ∧ s = chs "/c" then .ok [0x61]
    else .refused
  probe := fun _ _ => false

/-- Environment for the duplicate-file scenario: the root listing lists
the same text file `/a` twice. -/
def envC4 : Env where
  net := fun h p s =>
    if h = chs "h" ∧ p = 70 ∧ s = [] then
      .ok (toBytes "0f\t/a\th\t70\n0f\t/a\th\t70")
    else if h = chs "h" ∧ p = 70 ∧ s = chs "/a" then .ok [0x78]
    else .refused
  probe := fun _ _ => false

/-- A first text-file entry used in the extremum and path theorems. -/
def entC8 : Entry where
  item_type := '0'
  display_string := chs "e"
  selector := chs "/e"
  host := chs "h"
  port := 70

/-- A text-file entry whose selector contains an underscore. -/
def entC9 : Entry where
  item_type := '0'
  display_string := chs "f"
  selector := chs "/a_b"
  host := chs "h"
  port := 70

/-- Environment for the external-directory scenario: the root listing has a
single type-'1' entry pointing at the external endpoint `other:70`. -/
def envC5 : Env where
  net := fun h p s =>
    if h = chs "h" ∧ p = 70 ∧ s = [] then .ok (toBytes "1x\t/x\tother\t70")
    else .refused
  probe := fun _ _ => true

/-- The crawl state after running `envC5`: one probe, no recursion. -/
def stC5 : CrawlSt where
  stats := { initStats with external_servers := [(chs "other:70", true)] }
  visited := [chs "h:70"]
  tr := [Event.listFetch (chs "h:70"), Event.probeCall (chs "other:70")]

/-- A directory entry for selector `/pub` on the origin endpoint. -/
def entD : Entry where
  item_type := '1'
  display_string := chs "pub"
  selector := chs "/pub"
  host := chs "h"
  port := 70

/-- A crawl state in which `/pub` has already been counted. -/
def stD : CrawlSt where
  stats := { initStats with dirs := 1, all_directories := [chs "h:70/pub"] }
  visited := []
  tr := []

/-- A crawl state in which the root path of `h:70` is already visited. -/
def stV : CrawlSt where
  stats := initStats
  visited := [chs "h:70"]
  tr := []

/-- The stats after recording a first text file `/e` of one byte. -/
def stats8W : Stats :=
  { initStats with
    text_files := [(chs "h:70/e", 1)]
    smallest_text := (chs "h:70/e", .num 1)
    smallest_text_content := chs "A"
    largest_text := (chs "h:70/e", .num 1)
    all_files := [(chs "h:70/e", 1)]
    files := 1 }

/-- The stats after recording a one-byte text file whose selector contains
an underscore. -/
def stats9W : Stats :=
  { initStats with
    text_files := [(chs "h:70/a_b", 1)]
    smallest_text := (chs "h:70/a_b", .num 1)
    smallest_text_content := chs "x"
    largest_text := (chs "h:70/a_b", .num 1)
    all_files := [(chs "h:70/a/b", 1)]
    files := 1 }
@[simp] theorem listKeys_append (a b : List Event) :
    listKeys (a ++ b) = listKeys a ++ listKeys b := by
  simp [listKeys]

@[simp] theorem fileKeys_append (a b : List Event) :
    fileKeys (a ++ b) = fileKeys a ++ fileKeys b := by
  simp [fileKeys]

@[simp] theorem probeKeys_append (a b : List Event) :
    probeKeys (a ++ b) = probeKeys a ++ probeKeys b := by
  simp [probeKeys]

@[simp] theorem listKeys_one_list (k : Str) : listKeys [Event.listFetch k] = [k] := rfl
@[simp] theorem listKeys_one_file (k : Str) : listKeys [Event.fileFetch k] = [] := rfl
@[simp] theorem listKeys_one_probe (k : Str) : listKeys [Event.probeCall k] = [] := rfl
@[simp] theorem fileKeys_one_list (k : Str) : fileKeys [Event.listFetch k] = [] := rfl
@[simp] theorem fileKeys_one_file (k : Str) : fileKeys [Event.fileFetch k] = [k] := rfl
@[simp] theorem fileKeys_one_probe (k : Str) : fileKeys [Event.probeCall k] = [] := rfl
@[simp] theorem probeKeys_one_list (k : Str) : probeKeys [Event.listFetch k] = [] := rfl
@[simp] theorem probeKeys_one_file (k : Str) : probeKeys [Event.fileFetch k] = [] := rfl
@[simp] theorem probeKeys_one_probe (k : Str) : probeKeys [Event.probeCall k] = [k] := rfl

theorem lookup_none_not_mem {k : Str} {l : List (Str × Bool)}
    (h : List.lookup k l = none) : k ∉ l.map Prod.fst := by
  induction l with
  | nil => simp
  | cons a t ih =>
    rw [List.lookup] at h
    by_cases hk : k = a.1
    · rw [hk] at h; simp at h
    · simp only [List.map_cons, List.mem_cons]
      rintro (h1 | h2)
      · exact hk h1
      · have hne : (k == a.1) = false := beq_eq_false_iff_ne.mpr hk
        rw [hne] at h
        exact ih h h2

theorem crawlMono_refl (st : CrawlSt) : CrawlMono st st :=
  ⟨List.Subset.refl _, List.Subset.refl _, List.Subset.refl _⟩

theorem crawlMono_trans {a b c : CrawlSt} (h1 : CrawlMono a b) (h2 : CrawlMono b c) :
    CrawlMono a c :=
  ⟨h1.1.trans h2.1, h1.2.1.trans h2.2.1, h1.2.2.trans h2.2.2⟩

theorem gopher_request_cases (net : Str → Int → Str → NetResult) (h : Str) (p : Int)
    (sel : Str) (s : Stats) (m : Nat) :
    (∃ d, gopher_request net h p sel s m = (some d, s)) ∨
    (∃ msg, gopher_request net h p sel s m = (none, recordError s sel msg)) := by
  unfold gopher_request
  cases hnet : net h p sel with
  | ok data =>
    by_cases hl : data.length > m
    · right
      refine ⟨oversizeMsg m, ?_⟩
      dsimp only
      rw [if_pos hl]
    · left
      refine ⟨data, ?_⟩
      dsimp only
      rw [if_neg hl]
  | refused => right; exact ⟨refusedMsg, rfl⟩
  | timeout => right; exact ⟨timeoutMsg, rfl⟩

theorem process_file_stats {item : Entry} {s : Stats} {r : List Nat} {b : Bool}
    {s' : Stats} (h : process_file item s r b = .ok s') :
    s'.errors = s.errors ∧ s'.error_details = s.error_details ∧
    s'.external_servers = s.external_servers ∧ s'.dirs = s.dirs ∧
    s'.all_directories = s.all_directories := by
  unfold process_file at h
  cases b with
  | true =>
    simp only [if_true] at h
    injection h with h2
    subst h2
    exact ⟨rfl, rfl, rfl, rfl, rfl⟩
  | false =>
    simp only [Bool.false_eq_true, if_false] at h
    cases hd : utf8Decode r with
    | none => rw [hd] at h; cases h
    | some txt =>
      rw [hd] at h
      dsimp only at h
      injection h with h2
      subst h2
      exact ⟨rfl, rfl, rfl, rfl, rfl⟩

theorem recordError_inv {s : Stats} (hs : s.errors = s.error_details.length)
    (sel msg : Str) :
    (recordError s sel msg).errors = (recordError s sel msg).error_details.length := by
  simp [recordError, hs]

theorem items_loop_pres (env : Env)
    (recur : Str → Int → Str → CrawlSt → Except PyErr CrawlSt)
    (host : Str) (port : Int) (ohost : Str)
    (hrec : ∀ h p sel st st', recur h p sel st = .ok st' →
      CrawlInv st → CrawlInv st' ∧ CrawlMono st st') :
    ∀ items st st', items_loop env recur host port ohost items st = .ok st' →
      CrawlInv st → CrawlInv st' ∧ CrawlMono st st' := by
  intro items
  induction items with
  | nil =>
    intro st st' h hinv
    simp only [items_loop] at h
    cases h
    exact ⟨hinv, crawlMono_refl _⟩
  | cons item rest ih =>
    intro st st' h hinv
    simp only [items_loop] at h
    by_cases hext : item.host ≠ ohost ∨ item.port ≠ port
    · rw [if_pos hext] at h
      by_cases hlk : (List.lookup (endpointKey item.host item.port)
          st.stats.external_servers).isNone = true
      · rw [if_pos hlk] at h
        have hnotmem : endpointKey item.host item.port ∉
            st.stats.external_servers.map Prod.fst :=
          lookup_none_not_mem (Option.isNone_iff_eq_none.mp hlk)
        obtain ⟨h1, h2, h3, h4, h5, h6, h7⟩ := hinv
        have hinv1 : CrawlInv
            { st with
              stats := { st.stats with
                external_servers := st.stats.external_servers ++
                  [(endpointKey item.host item.port, env.probe item.host item.port)] },
              tr := st.tr ++ [Event.probeCall (endpointKey item.host item.port)] } := by
          refine ⟨h1, ?_, ?_, ?_, ?_, h6, h7⟩
          · intro k hk; simp at hk; exact h2 k hk
          · simpa using h3
          · intro k hk
            simp only [probeKeys_append, probeKeys_one_probe, List.mem_append,
              List.mem_singleton] at hk
            simp only [List.map_append, List.mem_append]
            rcases hk with hk | hk
            · exact Or.inl (h4 k hk)
            · subst hk; right; simp
          · simp only [probeKeys_append, probeKeys_one_probe]
            rw [List.nodup_append]
            exact ⟨h5, List.nodup_singleton _,
              fun k hk hk2 => hnotmem (by rw [List.mem_singleton] at hk2; rw [← hk2]; exact h4 k hk)⟩
        obtain ⟨hinv', hmono⟩ := ih _ _ h hinv1
        refine ⟨hinv', crawlMono_trans ?_ hmono⟩
        exact ⟨List.Subset.refl _, by simp [List.subset_append_left], List.Subset.refl _⟩
      · rw [if_neg hlk] at h
        exact ih _ _ h hinv
    · rw [if_neg hext] at h
      by_cases ht1 : item.item_type = '1'
      · rw [if_pos ht1] at h
        by_cases hmem : pathKey item.host item.port item.selector ∈ st.stats.all_directories
        · rw [if_pos hmem] at h
          exact ih _ _ h hinv
        · rw [if_neg hmem] at h
          obtain ⟨h1, h2, h3, h4, h5, h6, h7⟩ := hinv
          have hinv1 : CrawlInv
              { st with stats := { st.stats with
                dirs := st.stats.dirs + 1,
                all_directories := pathKey item.host item.port item.selector ::
                  st.stats.all_directories } } := by
            refine ⟨h1, h2, h3, h4, h5, by simp [h6], List.Nodup.cons hmem h7⟩
          cases hr : recur item.host item.port item.selector
              { st with stats := { st.stats with
                dirs := st.stats.dirs + 1,
                all_directories := pathKey item.host item.port item.selector ::
                  st.stats.all_directories } } with
          | error e => rw [hr] at h; cases h
          | ok st2 =>
            rw [hr] at h
            obtain ⟨hinv2, hmono2⟩ := hrec _ _ _ _ _ hr hinv1
            obtain ⟨hinv', hmono'⟩ := ih _ _ h hinv2
            refine ⟨hinv', crawlMono_trans ?_ (crawlMono_trans hmono2 hmono')⟩
            exact ⟨List.Subset.refl _, List.Subset.refl _, List.subset_cons_self _ _⟩
      · rw [if_neg ht1] at h
        by_cases ht09 : item.item_type = '0' ∨ item.item_type = '9'
        · rw [if_pos ht09] at h
          obtain ⟨h1, h2, h3, h4, h5, h6, h7⟩ := hinv
          rcases gopher_request_cases env.net item.host item.port item.selector
              st.stats MAXSIZE with ⟨d, hd⟩ | ⟨msg, hm⟩
          · rw [hd] at h
            dsimp only at h
            cases hpf : process_file item st.stats d (item.item_type = '9') with
            | error e => rw [hpf] at h; cases h
            | ok s3 =>
              rw [hpf] at h
              obtain ⟨p1, p2, p3, p4, p5⟩ := process_file_stats hpf
              have hinv1 : CrawlInv
                  { stats := s3, visited := st.visited,
                    tr := st.tr ++ [Event.fileFetch (pathKey item.host item.port item.selector)] } := by
                refine ⟨?_, ?_, ?_, ?_, ?_, ?_, ?_⟩
                · rw [p1, p2]; exact h1
                · intro k hk; simp at hk; exact h2 k hk
                · simpa using h3
                · intro k hk; simp at hk; rw [p3]; exact h4 k hk
                · simpa using h5
                · rw [p4, p5]; exact h6
                · rw [p5]; exact h7
              obtain ⟨hinv', hmono'⟩ := ih _ _ h hinv1
              refine ⟨hinv', crawlMono_trans ?_ hmono'⟩
              exact ⟨List.Subset.refl _, by rw [p3]; exact List.Subset.refl _, by rw [p5]; exact List.Subset.refl _⟩
          · rw [hm] at h
            dsimp only at h
            have hinv1 : CrawlInv
                { stats := recordError st.stats item.selector msg, visited := st.visited,
                  tr := st.tr ++ [Event.fileFetch (pathKey item.host item.port item.selector)] } := by
              refine ⟨recordError_inv h1 _ _, ?_, ?_, ?_, ?_, h6, h7⟩
              · intro k hk; simp at hk; exact h2 k hk
              · simpa using h3
              · intro k hk; simp at hk; exact h4 k hk
              · simpa using h5
            obtain ⟨hinv', hmono'⟩ := ih _ _ h hinv1
            exact ⟨hinv', crawlMono_trans
              ⟨List.Subset.refl _, List.Subset.refl _, List.Subset.refl _⟩ hmono'⟩
        · rw [if_neg ht09] at h
          by_cases hti : item.item_type = 'i'
          · rw [if_pos hti] at h
            exact ih _ _ h hinv
          · rw [if_neg hti] at h
            obtain ⟨h1, h2, h3, h4, h5, h6, h7⟩ := hinv
            have hinv1 : CrawlInv
                { st with stats := (recordError st.stats item.selector (unknownTypeMsg item.item_type)) } :=
              ⟨recordError_inv h1 _ _, h2, h3, h4, h5, h6, h7⟩
            obtain ⟨hinv', hmono'⟩ := ih _ _ h hinv1
            exact ⟨hinv', crawlMono_trans
              ⟨List.Subset.refl _, List.Subset.refl _, List.Subset.refl _⟩ hmono'⟩

theorem crawl_go_pres (env : Env) :
    ∀ fuel host port selector ohost st st',
      crawl_go env fuel host port selector ohost st = .ok st' →
      CrawlInv st → CrawlInv st' ∧ CrawlMono st st' := by
  intro fuel
  induction fuel with
  | zero =>
    intro host port selector ohost st st' h _
    simp only [crawl_go] at h
    cases h
  | succ fuel ih =>
    intro host port selector ohost st st' h hinv
    simp only [crawl_go] at h
    by_cases hv : pathKey host port selector ∈ st.visited
    · rw [if_pos hv] at h
      cases h
      exact ⟨hinv, crawlMono_refl _⟩
    · rw [if_neg hv] at h
      obtain ⟨h1, h2, h3, h4, h5, h6, h7⟩ := hinv
      have hnotlk : pathKey host port selector ∉ listKeys st.tr :=
        fun hk => hv (h2 _ hk)
      rcases gopher_request_cases env.net host port selector st.stats MAXSIZE with
        ⟨d, hd⟩ | ⟨msg, hm⟩
      · rw [hd] at h
        dsimp only at h
        cases hp : parse_directory d with
        | error e => rw [hp] at h; cases h
        | ok items =>
          rw [hp] at h
          have hinv1 : CrawlInv
              { stats := st.stats,
                visited := pathKey host port selector :: st.visited,
                tr := st.tr ++ [Event.listFetch (pathKey host port selector)] } := by
            refine ⟨h1, ?_, ?_, ?_, ?_, h6, h7⟩
            · intro k hk
              simp only [listKeys_append, listKeys_one_list, List.mem_append,
                List.mem_singleton] at hk
              rcases hk with hk | hk
              · exact List.mem_cons_of_mem _ (h2 k hk)
              · subst hk; exact List.mem_cons_self _ _
            · simp only [listKeys_append, listKeys_one_list]
              rw [List.nodup_append]
              exact ⟨h3, List.nodup_singleton _,
                fun k hk hk2 => by rw [List.mem_singleton] at hk2; subst hk2; exact hnotlk hk⟩
            · intro k hk; simp at hk; exact h4 k hk
            · simpa using h5
          obtain ⟨hinv', hmono'⟩ := items_loop_pres env _ host port ohost
            (fun a b c dd e heq hi => ih a b c ohost dd e heq hi) items _ _ h hinv1
          refine ⟨hinv', crawlMono_trans ?_ hmono'⟩
          exact ⟨List.subset_cons_self _ _, List.Subset.refl _, List.Subset.refl _⟩
      · rw [hm] at h
        dsimp only at h
        cases h
        constructor
        · refine ⟨recordError_inv (recordError_inv h1 _ _) _ _, ?_, ?_, ?_, ?_, h6, h7⟩
          · intro k hk
            simp only [listKeys_append, listKeys_one_list, List.mem_append,
              List.mem_singleton] at hk
            rcases hk with hk | hk
            · exact List.mem_cons_of_mem _ (h2 k hk)
            · subst hk; exact List.mem_cons_self _ _
          · simp only [listKeys_append, listKeys_one_list]
            rw [List.nodup_append]
            exact ⟨h3, List.nodup_singleton _,
              fun k hk hk2 => by rw [List.mem_singleton] at hk2; subst hk2; exact hnotlk hk⟩
          · intro k hk; simp at hk; exact h4 k hk
          · simpa using h5
        · exact ⟨List.subset_cons_self _ _, List.Subset.refl _, List.Subset.refl _⟩

theorem parseLines_ok_filterMap :
    ∀ ls es, parseLines ls = .ok es → es = ls.filterMap lineEntry := by
  intro ls
  induction ls with
  | nil => intro es h; simp only [parseLines] at h; cases h; simp
  | cons line rest ih =>
    intro es h
    simp only [parseLines] at h
    rw [List.filterMap_cons]
    rcases hsp : splitTab line with _ | ⟨p0, _ | ⟨p1, _ | ⟨p2, _ | ⟨p3, r⟩⟩⟩⟩ <;>
      rw [hsp] at h
    · simp only [lineEntry, hsp]; exact ih es h
    · simp only [lineEntry, hsp]; exact ih es h
    · simp only [lineEntry, hsp]; exact ih es h
    · simp only [lineEntry, hsp]; exact ih es h
    · cases p0 with
      | nil => dsimp only at h; cases h
      | cons t d =>
        dsimp only at h
        cases hpi : pyInt p3 with
        | none =>
          rw [hpi] at h
          simp only [lineEntry, hsp, hpi]
          exact ih es h
        | some port =>
          rw [hpi] at h
          dsimp only at h
          by_cases hz : port = 0
          · rw [if_pos hz] at h
            simp only [lineEntry, hsp, hpi, if_pos hz]
            exact ih es h
          · rw [if_neg hz] at h
            cases hrec : parseLines rest with
            | error e => rw [hrec] at h; cases h
            | ok tail =>
              rw [hrec] at h
              injection h with h2
              subst h2
              simp only [lineEntry, hsp, hpi, if_neg hz]
              rw [ih tail hrec]

theorem parseLines_short (line : Str) (rest : List Str)
    (h4 : (splitTab line).length < 4) :
    parseLines (line :: rest) = parseLines rest ∧ lineEntry line = none := by
  rcases hsp : splitTab line with _ | ⟨p0, _ | ⟨p1, _ | ⟨p2, _ | ⟨p3, r⟩⟩⟩⟩
  · exact ⟨by simp only [parseLines, hsp], by simp only [lineEntry, hsp]⟩
  · exact ⟨by simp only [parseLines, hsp], by simp only [lineEntry, hsp]⟩
  · exact ⟨by simp only [parseLines, hsp], by simp only [lineEntry, hsp]⟩
  · exact ⟨by simp only [parseLines, hsp], by simp only [lineEntry, hsp]⟩
  · rw [hsp] at h4; simp at h4; omega

theorem parseLines_badPort (line : Str) (rest : List Str) (p0 p1 p2 p3 : Str)
    (r : List Str) (hsp : splitTab line = p0 :: p1 :: p2 :: p3 :: r) (hne : p0 ≠ [])
    (hbad : pyInt p3 = none ∨ pyInt p3 = some 0) :
    parseLines (line :: rest) = parseLines rest ∧ lineEntry line = none := by
  cases p0 with
  | nil => exact absurd rfl hne
  | cons t d =>
    rcases hbad with hpi | hpi
    · constructor
      · simp only [parseLines, hsp]
        rw [hpi]
      · simp only [lineEntry, hsp]
        rw [hpi]
    · constructor
      · simp only [parseLines, hsp]
        rw [hpi]
        simp
      · simp only [lineEntry, hsp]
        rw [hpi]
        simp

theorem items_loop_external (env : Env)
    (recur : Str → Int → Str → CrawlSt → Except PyErr CrawlSt)
    (host : Str) (port : Int) (ohost : Str) (item : Entry) (rest : List Entry)
    (st : CrawlSt) (hext : item.host ≠ ohost ∨ item.port ≠ port) :
    ∃ st1, items_loop env recur host port ohost (item :: rest) st =
        items_loop env recur host port ohost rest st1 ∧
      st1.visited = st.visited ∧
      listKeys st1.tr = listKeys st.tr ∧
      fileKeys st1.tr = fileKeys st.tr ∧
      ((List.lookup (endpointKey item.host item.port)
          st.stats.external_servers).isNone = true →
        st1.stats.external_servers = st.stats.external_servers ++
          [(endpointKey item.host item.port, env.probe item.host item.port)] ∧
        st1.tr = st.tr ++ [Event.probeCall (endpointKey item.host item.port)]) ∧
      (¬ (List.lookup (endpointKey item.host item.port)
          st.stats.external_servers).isNone = true →
        st1 = st) := by
  by_cases hlk : (List.lookup (endpointKey item.host item.port)
      st.stats.external_servers).isNone = true
  · refine ⟨{ st with
        stats := { st.stats with
          external_servers := st.stats.external_servers ++
            [(endpointKey item.host item.port, env.probe item.host item.port)] },
        tr := st.tr ++ [Event.probeCall (endpointKey item.host item.port)] },
      ?_, rfl, by simp, by simp, fun _ => ⟨rfl, rfl⟩, fun hc => absurd hlk hc⟩
    simp only [items_loop]
    rw [if_pos hext, if_pos hlk]
  · refine ⟨st, ?_, rfl, rfl, rfl, fun hc => absurd hc hlk, fun _ => rfl⟩
    simp only [items_loop]
    rw [if_pos hext, if_neg hlk]

theorem items_loop_dir_counted (env : Env)
    (recur : Str → Int → Str → CrawlSt → Except PyErr CrawlSt)
    (host : Str) (port : Int) (ohost : Str) (item : Entry) (rest : List Entry)
    (st : CrawlSt) (hh : item.host = ohost) (hp : item.port = port)
    (ht : item.item_type = '1')
    (hmem : pathKey item.host item.port item.selector ∈ st.stats.all_directories) :
    items_loop env recur host port ohost (item :: rest) st =
      items_loop env recur host port ohost rest st := by
  simp only [items_loop]
  rw [if_neg (by simp [hh, hp]), if_pos ht, if_pos hmem]

theorem items_loop_dir_recurse (env : Env)
    (recur : Str → Int → Str → CrawlSt → Except PyErr CrawlSt)
    (host : Str) (port : Int) (ohost : Str) (item : Entry) (rest : List Entry)
    (st : CrawlSt) (hh : item.host = ohost) (hp : item.port = port)
    (ht : item.item_type = '1')
    (hmem : pathKey item.host item.port item.selector ∉ st.stats.all_directories) :
    items_loop env recur host port ohost (item :: rest) st =
      match recur item.host item.port item.selector
          { st with stats := { st.stats with
            dirs := st.stats.dirs + 1,
            all_directories := pathKey item.host item.port item.selector ::
              st.stats.all_directories } } with
      | .error e => .error e
      | .ok st2 => items_loop env recur host port ohost rest st2 := by
  simp only [items_loop]
  rw [if_neg (by simp [hh, hp]), if_pos ht, if_neg hmem]

theorem items_loop_info (env : Env)
    (recur : Str → Int → Str → CrawlSt → Except PyErr CrawlSt)
    (host : Str) (port : Int) (ohost : Str) (item : Entry) (rest : List Entry)
    (st : CrawlSt) (hh : item.host = ohost) (hp : item.port = port)
    (ht : item.item_type = 'i') :
    items_loop env recur host port ohost (item :: rest) st =
      items_loop env recur host port ohost rest st := by
  have ht1 : ¬ item.item_type = '1' := by rw [ht]; decide
  have ht09 : ¬ (item.item_type = '0' ∨ item.item_type = '9') := by
    rw [ht]; decide
  simp only [items_loop]
  rw [if_neg (by simp [hh, hp]), if_neg ht1, if_neg ht09, if_pos ht]

theorem items_loop_unknown (env : Env)
    (recur : Str → Int → Str → CrawlSt → Except PyErr CrawlSt)
    (host : Str) (port : Int) (ohost : Str) (item : Entry) (rest : List Entry)
    (st : CrawlSt) (hh : item.host = ohost) (hp : item.port = port)
    (ht1 : item.item_type ≠ '1') (ht09 : ¬ (item.item_type = '0' ∨ item.item_type = '9'))
    (hti : item.item_type ≠ 'i') :
    items_loop env recur host port ohost (item :: rest) st =
      items_loop env recur host port ohost rest
        { st with stats := (recordError st.stats item.selector
            (unknownTypeMsg item.item_type)) } := by
  simp only [items_loop]
  rw [if_neg (by simp [hh, hp]), if_neg ht1, if_neg ht09, if_neg hti]

theorem items_loop_file_oversize (env : Env)
    (recur : Str → Int → Str → CrawlSt → Except PyErr CrawlSt)
    (host : Str) (port : Int) (ohost : Str) (item : Entry) (rest : List Entry)
    (st : CrawlSt) (data : List Nat)
    (hh : item.host = ohost) (hp : item.port = port)
    (ht : item.item_type = '0' ∨ item.item_type = '9')
    (hnet : env.net item.host item.port item.selector = .ok data)
    (hlen : data.length > MAXSIZE) :
    items_loop env recur host port ohost (item :: rest) st =
      items_loop env recur host port ohost rest
        { st with stats := (recordError st.stats item.selector (oversizeMsg MAXSIZE)),
                  tr := st.tr ++
                    [Event.fileFetch (pathKey item.host item.port item.selector)] } := by
  have ht1 : ¬ item.item_type = '1' := by
    rcases ht with h | h <;> rw [h] <;> decide
  simp only [items_loop]
  rw [if_neg (by simp [hh, hp]), if_neg ht1, if_pos ht]
  unfold gopher_request
  rw [hnet]
  dsimp only
  rw [if_pos hlen]

theorem gopher_request_oversize (net : Str → Int → Str → NetResult) (h : Str)
    (p : Int) (sel : Str) (s : Stats) (m : Nat) (data : List Nat)
    (hnet : net h p sel = .ok data) (hlen : data.length > m) :
    gopher_request net h p sel s m =
      (none, { s with errors := s.errors + 1,
                      error_details := s.error_details ++ [(sel, oversizeMsg m)] }) := by
  unfold gopher_request
  rw [hnet]
  dsimp only
  rw [if_pos hlen]
  rfl

theorem crawl_go_oversize (env : Env) (fuel : Nat) (host : Str) (port : Int)
    (selector original_host : Str) (st : CrawlSt) (data : List Nat)
    (hv : pathKey host port selector ∉ st.visited)
    (hnet : env.net host port selector = .ok data)
    (hlen : data.length > MAXSIZE) :
    crawl_go env (Nat.succ fuel) host port selector original_host st =
      .ok { stats := recordError (recordError st.stats selector (oversizeMsg MAXSIZE))
                       selector noResponseMsg,
            visited := pathKey host port selector :: st.visited,
            tr := st.tr ++ [Event.listFetch (pathKey host port selector)] } := by
  simp only [crawl_go]
  rw [if_neg hv]
  unfold gopher_request
  simp only [hnet, hlen, if_true]

theorem crawl_go_visited (env : Env) (fuel : Nat) (host : Str) (port : Int)
    (selector original_host : Str) (st : CrawlSt)
    (hv : pathKey host port selector ∈ st.visited) :
    crawl_go env (Nat.succ fuel) host port selector original_host st = .ok st := by
  simp only [crawl_go]
  rw [if_pos hv]

theorem initInv : CrawlInv { stats := initStats, visited := [], tr := [] } := by
  refine ⟨rfl, ?_, ?_, ?_, ?_, rfl, ?_⟩ <;>
    simp [listKeys, probeKeys, initStats]

/-- Claim C1 (corrected), counterexample: a single oversize listing fetch
records TWO error entries, not one — `gopher_request` records the oversize
error and `crawl_gopher` then records a second, generic fetch-failure
error for the same selector.  The trace shows a single fetch. -/
theorem C1_listing_oversize_two_records :
    (crawl_gopher envC1 1 (chs "h") 70).map
      (fun st => (st.stats.errors, st.stats.error_details, st.tr)) =
    .ok (2, [([], oversizeMsg MAXSIZE), ([], noResponseMsg)],
         [Event.listFetch (chs "h:70")]) := by
  unfold crawl_gopher
  rw [show (1 : Nat) = Nat.succ 0 from rfl]
  rw [crawl_go_oversize envC1 0 (chs "h") 70 [] (chs "h")
    { stats := initStats, visited := [], tr := [] }
    (List.replicate (MAXSIZE + 1) 0)
    (List.not_mem_nil _) rfl
    (by rw [List.length_replicate]; exact Nat.lt_succ_self _)]
  decide

/-- Claim C1 (corrected), amended: an oversize fetch returns no data and
the fetch itself appends exactly one error record referencing the original
selector with the counter incremented by one; for a file-body fetch this
is the only record, but for a directory-listing fetch the orchestrator
appends a second, generic failure record, for two records in total. -/
theorem C1_oversize_fetch_error_records :
    (∀ (net : Str → Int → Str → NetResult) (h : Str) (p : Int) (sel : Str)
       (s : Stats) (m : Nat) (data : List Nat),
      net h p sel = .ok data → data.length > m →
      gopher_request net h p sel s m =
        (none, { s with errors := s.errors + 1,
                        error_details := s.error_details ++ [(sel, oversizeMsg m)] })) ∧
    (∀ (env : Env) (recur : Str → Int → Str → CrawlSt → Except PyErr CrawlSt)
       (host : Str) (port : Int) (ohost : Str) (item : Entry) (rest : List Entry)
       (st : CrawlSt) (data : List Nat),
      item.host = ohost → item.port = port →
      (item.item_type = '0' ∨ item.item_type = '9') →
      env.net item.host item.port item.selector = .ok data → data.length > MAXSIZE →
      items_loop env recur host port ohost (item :: rest) st =
        items_loop env recur host port ohost rest
          { st with stats := (recordError st.stats item.selector (oversizeMsg MAXSIZE)),
                    tr := st.tr ++
                      [Event.fileFetch (pathKey item.host item.port item.selector)] }) ∧
    (∀ (env : Env) (fuel : Nat) (host : Str) (port : Int) (selector ohost : Str)
       (st : CrawlSt) (data : List Nat),
      pathKey host port selector ∉ st.visited →
      env.net host port selector = .ok data → data.length > MAXSIZE →
      crawl_go env (Nat.succ fuel) host port selector ohost st =
        .ok { stats := recordError (recordError st.stats selector (oversizeMsg MAXSIZE))
                         selector noResponseMsg,
              visited := pathKey host port selector :: st.visited,
              tr := st.tr ++ [Event.listFetch (pathKey host port selector)] }) := by
  refine ⟨?_, ?_, ?_⟩
  · intro net h p sel s m data hnet hlen
    exact gopher_request_oversize net h p sel s m data hnet hlen
  · intro env recur host port ohost item rest st data hh hp ht hnet hlen
    exact items_loop_file_oversize env recur host port ohost item rest st data
      hh hp ht hnet hlen
  · intro env fuel host port selector ohost st data hv hnet hlen
    exact crawl_go_oversize env fuel host port selector ohost st data hv hnet hlen

/-- Witness for C1: a concrete oversize fetch (ceiling 0, two-byte body)
returns no data and appends exactly the one oversize record. -/
theorem C1_oversize_fetch_error_records_witness :
    gopher_request (fun _ _ _ => .ok [1, 2]) (chs "h") 70 (chs "/f") initStats 0 =
      (none,
       { initStats with
         errors := 1
         error_details := [(chs "/f", oversizeMsg 0)] }) :=
  C1_oversize_fetch_error_records.1 (fun _ _ _ => .ok [1, 2]) (chs "h") 70 (chs "/f")
    initStats 0 [1, 2] rfl (by decide)

/-- Claim C2 (code bug): a UTF-8 decode failure on a single text-file body
is NOT contained to that file — the exception escapes `process_file` and
`crawl_gopher` and aborts the entire crawl, so the sibling entry `/c` is
never traversed. -/
theorem C2_decode_failure_aborts_crawl :
    crawl_gopher envC2 3 (chs "h") 70 = .error .unicodeDecodeError := by decide

/-- Claim C3 (confirmed): the error counter equals the length of the error
log initially, after every error-recording primitive (`recordError` backs
the oversize, refused, timed-out, failed-listing and unknown-type paths),
after every `gopher_request`, after every `process_file`, and at the end
of every completed `crawl_gopher` call. -/
theorem C3_error_counter_eq_log_length :
    initStats.errors = initStats.error_details.length ∧
    (∀ (s : Stats) (sel msg : Str), s.errors = s.error_details.length →
      (recordError s sel msg).errors = (recordError s sel msg).error_details.length) ∧
    (∀ (net : Str → Int → Str → NetResult) (h : Str) (p : Int) (sel : Str)
       (s : Stats) (m : Nat), s.errors = s.error_details.length →
      ((gopher_request net h p sel s m).2).errors =
        ((gopher_request net h p sel s m).2).error_details.length) ∧
    (∀ (item : Entry) (s : Stats) (r : List Nat) (b : Bool) (s' : Stats),
      process_file item s r b = .ok s' → s.errors = s.error_details.length →
      s'.errors = s'.error_details.length) ∧
    (∀ (env : Env) (fuel : Nat) (host : Str) (port : Int) (selector ohost : Str)
       (st st' : CrawlSt),
      crawl_go env fuel host port selector ohost st = .ok st' → CrawlInv st →
      st'.stats.errors = st'.stats.error_details.length) := by
  refine ⟨rfl, fun s sel msg hs => recordError_inv hs sel msg, ?_, ?_, ?_⟩
  · intro net h p sel s m hs
    rcases gopher_request_cases net h p sel s m with ⟨d, hd⟩ | ⟨msg, hm⟩
    · rw [hd]; exact hs
    · rw [hm]; exact recordError_inv hs sel msg
  · intro item s r b s' hpf hs
    obtain ⟨p1, p2, _, _, _⟩ := process_file_stats hpf
    rw [p1, p2]; exact hs
  · intro env fuel host port selector ohost st st' h hinv
    exact ((crawl_go_pres env fuel host port selector ohost st st' h hinv).1).1

/-- Witness for C3 at a concrete error record. -/
theorem C3_error_counter_eq_log_length_witness :
    (recordError initStats (chs "/s") refusedMsg).errors =
      (recordError initStats (chs "/s") refusedMsg).error_details.length :=
  C3_error_counter_eq_log_length.2.1 initStats (chs "/s") refusedMsg rfl

/-- Claim C4 (corrected), counterexample: a file listed twice in the root
listing is fetched twice — file-body fetches are not deduplicated by the
visited-path set. -/
theorem C4_file_fetched_twice :
    (crawl_gopher envC4 2 (chs "h") 70).map
      (fun st => (fileKeys st.tr).count (chs "h:70/a")) = .ok 2 := by decide

/-- Claim C4 (corrected), amended: the visited-path dedup applies to the
paths `crawl_gopher` itself is invoked on: a second call on a visited path
returns the state unchanged immediately, and no completed crawl ever
issues two listing fetches for the same canonical key.  File bodies are
fetched on every encounter (see the counterexample). -/
theorem C4_visit_dedup :
    (∀ (env : Env) (fuel : Nat) (host : Str) (port : Int) (selector ohost : Str)
       (st : CrawlSt), pathKey host port selector ∈ st.visited →
      crawl_go env (Nat.succ fuel) host port selector ohost st = .ok st) ∧
    (∀ (env : Env) (fuel : Nat) (host : Str) (port : Int) (st' : CrawlSt),
      crawl_gopher env fuel host port = .ok st' → (listKeys st'.tr).Nodup) := by
  constructor
  · intro env fuel host port selector ohost st hv
    exact crawl_go_visited env fuel host port selector ohost st hv
  · intro env fuel host port st' h
    exact ((crawl_go_pres env fuel host port [] host _ st' h initInv).1).2.2.1

/-- Witness for C4: revisiting the already-visited root of `h:70` is an
idempotent no-op. -/
theorem C4_visit_dedup_witness :
    crawl_go envC4 1 (chs "h") 70 [] (chs "h") stV = .ok stV :=
  C4_visit_dedup.1 envC4 0 (chs "h") 70 [] (chs "h") stV (by decide)

/-- Claim C5 (confirmed): an entry is treated as external exactly when its
host differs from the origin host or its port differs from the current
level's port.  An external entry is handled entirely by the cached probe:
the state keeps its visited set, listing-fetch trace and file-fetch trace,
the endpoint is probed and cached only if not yet in the external-server
map, and traversal moves on to the next sibling — no recursion, even for
type '1'.  Internal entries instead recurse (uncounted directories), are
skipped ('i'), or are recorded as unknown, and a completed crawl probes
every distinct external endpoint at most once, caching each probe. -/
theorem C5_external_boundary :
    (∀ (env : Env) (recur : Str → Int → Str → CrawlSt → Except PyErr CrawlSt)
       (host : Str) (port : Int) (ohost : Str) (item : Entry) (rest : List Entry)
       (st : CrawlSt), (item.host ≠ ohost ∨ item.port ≠ port) →
      ∃ st1, items_loop env recur host port ohost (item :: rest) st =
          items_loop env recur host port ohost rest st1 ∧
        st1.visited = st.visited ∧
        listKeys st1.tr = listKeys st.tr ∧
        fileKeys st1.tr = fileKeys st.tr ∧
        ((List.lookup (endpointKey item.host item.port)
            st.stats.external_servers).isNone = true →
          st1.stats.external_servers = st.stats.external_servers ++
            [(endpointKey item.host item.port, env.probe item.host item.port)] ∧
          st1.tr = st.tr ++ [Event.probeCall (endpointKey item.host item.port)]) ∧
        (¬ (List.lookup (endpointKey item.host item.port)
            st.stats.external_servers).isNone = true →
          st1 = st)) ∧
    (∀ (env : Env) (recur : Str → Int → Str → CrawlSt → Except PyErr CrawlSt)
       (host : Str) (port : Int) (ohost : Str) (item : Entry) (rest : List Entry)
       (st : CrawlSt), item.host = ohost → item.port = port →
      item.item_type = '1' →
      pathKey item.host item.port item.selector ∉ st.stats.all_directories →
      items_loop env recur host port ohost (item :: rest) st =
        match recur item.host item.port item.selector
            { st with stats := { st.stats with
              dirs := st.stats.dirs + 1,
              all_directories := pathKey item.host item.port item.selector ::
                st.stats.all_directories } } with
        | .error e => .error e
        | .ok st2 => items_loop env recur host port ohost rest st2) ∧
    (∀ (env : Env) (recur : Str → Int → Str → CrawlSt → Except PyErr CrawlSt)
       (host : Str) (port : Int) (ohost : Str) (item : Entry) (rest : List Entry)
       (st : CrawlSt), item.host = ohost → item.port = port →
      item.item_type = 'i' →
      items_loop env recur host port ohost (item :: rest) st =
        items_loop env recur host port ohost rest st) ∧
    (∀ (env : Env) (recur : Str → Int → Str → CrawlSt → Except PyErr CrawlSt)
       (host : Str) (port : Int) (ohost : Str) (item : Entry) (rest : List Entry)
       (st : CrawlSt), item.host = ohost → item.port = port →
      item.item_type ≠ '1' → ¬ (item.item_type = '0' ∨ item.item_type = '9') →
      item.item_type ≠ 'i' →
      items_loop env recur host port ohost (item :: rest) st =
        items_loop env recur host port ohost rest
          { st with stats := (recordError st.stats item.selector
              (unknownTypeMsg item.item_type)) }) ∧
    (∀ (env : Env) (fuel : Nat) (host : Str) (port : Int) (st' : CrawlSt),
      crawl_gopher env fuel host port = .ok st' →
      (probeKeys st'.tr).Nodup ∧
      ∀ k ∈ probeKeys st'.tr, k ∈ st'.stats.external_servers.map Prod.fst) := by
  refine ⟨items_loop_external, items_loop_dir_recurse, items_loop_info,
    items_loop_unknown, ?_⟩
  intro env fuel host port st' h
  have hi := (crawl_go_pres env fuel host port [] host _ st' h initInv).1
  exact ⟨hi.2.2.2.2.1, hi.2.2.2.1⟩

/-- Witness for C5: the crawl of `envC5` (one external type-'1' entry)
probes `other:70` exactly once and caches it. -/
theorem C5_external_boundary_witness :
    (probeKeys stC5.tr).Nodup ∧
    ∀ k ∈ probeKeys stC5.tr, k ∈ stC5.stats.external_servers.map Prod.fst :=
  C5_external_boundary.2.2.2.2 envC5 2 (chs "h") 70 stC5 (by decide)

/-- Claim C6 (confirmed): re-encountering a directory whose canonical path
is already in the counted set is a complete no-op for that entry, and in
every completed crawl the directory counter equals the number of distinct
counted directory paths — each canonical path is counted at most once. -/
theorem C6_dir_count_idempotent :
    (∀ (env : Env) (recur : Str → Int → Str → CrawlSt → Except PyErr CrawlSt)
       (host : Str) (port : Int) (ohost : Str) (item : Entry) (rest : List Entry)
       (st : CrawlSt), item.host = ohost → item.port = port →
      item.item_type = '1' →
      pathKey item.host item.port item.selector ∈ st.stats.all_directories →
      items_loop env recur host port ohost (item :: rest) st =
        items_loop env recur host port ohost rest st) ∧
    (∀ (env : Env) (fuel : Nat) (host : Str) (port : Int) (st' : CrawlSt),
      crawl_gopher env fuel host port = .ok st' →
      st'.stats.dirs = st'.stats.all_directories.length ∧
      st'.stats.all_directories.Nodup) := by
  refine ⟨items_loop_dir_counted, ?_⟩
  intro env fuel host port st' h
  have hi := (crawl_go_pres env fuel host port [] host _ st' h initInv).1
  exact ⟨hi.2.2.2.2.2.1, hi.2.2.2.2.2.2⟩

/-- Witness for C6: a second listing referencing the already-counted
directory `/pub` leaves the state untouched. -/
theorem C6_dir_count_idempotent_witness :
    items_loop envC5 (fun _ _ _ st => Except.ok st) (chs "h") 70 (chs "h")
      [entD] stD =
    items_loop envC5 (fun _ _ _ st => Except.ok st) (chs "h") 70 (chs "h") [] stD :=
  C6_dir_count_idempotent.1 envC5 (fun _ _ _ st => Except.ok st) (chs "h") 70
    (chs "h") entD [] stD rfl rfl rfl (by decide)

/-- Claim C7 (corrected), counterexample: a listing line whose port field
is `0` but whose first tab-field is empty does not yield zero entries
silently — the parser raises `IndexError` on it. -/
theorem C7_zero_port_line_raises :
    parse_directory (toBytes "\ta\tb\t0") = .error .indexError ∧
    pyInt (chs "0") = some 0 := by decide

/-- Claim C7 (corrected), amended: when the parse succeeds, its output is
exactly the per-line survivors, in input order, with no reordering and no
deduplication; a line with fewer than 4 tab-separated fields contributes
nothing and never raises; a line with at least 4 fields and a nonempty
first field whose port is non-numeric or zero contributes nothing and
never raises.  (A line with at least 4 fields and an empty first field
raises `IndexError` — the correction.) -/
theorem C7_parser_discard_policy :
    (∀ (response : List Nat) (entries : List Entry),
      parse_directory response = .ok entries →
      entries = (splitlines (decodeListing response)).filterMap lineEntry) ∧
    (∀ (line : Str) (rest : List Str), (splitTab line).length < 4 →
      parseLines (line :: rest) = parseLines rest ∧ lineEntry line = none) ∧
    (∀ (line : Str) (rest : List Str) (p0 p1 p2 p3 : Str) (r : List Str),
      splitTab line = p0 :: p1 :: p2 :: p3 :: r → p0 ≠ [] →
      (pyInt p3 = none ∨ pyInt p3 = some 0) →
      parseLines (line :: rest) = parseLines rest ∧ lineEntry line = none) := by
  exact ⟨fun response entries h => parseLines_ok_filterMap _ entries h,
    parseLines_short, parseLines_badPort⟩

/-- Witness for C7: a concrete one-line listing parses to exactly its
surviving entry in order. -/
theorem C7_parser_discard_policy_witness :
    [({ item_type := '1', display_string := chs "a", selector := chs "/a",
        host := chs "h", port := 70 } : Entry)] =
      (splitlines (decodeListing (toBytes "1a\t/a\th\t70"))).filterMap lineEntry :=
  C7_parser_discard_policy.1 (toBytes "1a\t/a\th\t70") _ (by decide)

/-- Claim C8 (corrected), counterexample: the first text file recorded,
when it has zero bytes, seeds only the smallest-text slot; the
largest-text slot keeps its `('', 0)` sentinel because the comparison is
the strict `0 > 0`. -/
theorem C8_zero_size_first_file :
    (process_file entC8 initStats [] false).map
      (fun s => (s.smallest_text, s.largest_text)) =
    .ok ((chs "h:70/e", SizeVal.num 0), ([], SizeVal.num 0)) := by decide

/-- Claim C8 (corrected), amended: extrema move only under the strict
comparisons, so a tie updates nothing; a first file of positive size seeds
both extrema of its category; a first file of zero bytes seeds only the
smallest slot; the decoded content is retained exactly when the
smallest-text slot is updated. -/
theorem C8_extrema_updates :
    (∀ (item : Entry) (s : Stats) (r : List Nat) (txt : List Char) (s' : Stats),
      utf8Decode r = some txt → 0 < r.length →
      s.smallest_text = ([], .inf) → s.largest_text = ([], .num 0) →
      process_file item s r false = .ok s' →
      s'.smallest_text = (pathKey item.host item.port item.selector, .num r.length) ∧
      s'.largest_text = (pathKey item.host item.port item.selector, .num r.length) ∧
      s'.smallest_text_content = txt) ∧
    (∀ (item : Entry) (s : Stats) (r : List Nat) (s' : Stats), 0 < r.length →
      s.smallest_binary = ([], .inf) → s.largest_binary = ([], .num 0) →
      process_file item s r true = .ok s' →
      s'.smallest_binary = (pathKey item.host item.port item.selector, .num r.length) ∧
      s'.largest_binary = (pathKey item.host item.port item.selector, .num r.length)) ∧
    (∀ (item : Entry) (s : Stats) (s' : Stats),
      s.smallest_text = ([], .inf) → s.largest_text = ([], .num 0) →
      process_file item s [] false = .ok s' →
      s'.smallest_text = (pathKey item.host item.port item.selector, .num 0) ∧
      s'.largest_text = ([], .num 0)) ∧
    (∀ (item : Entry) (s : Stats) (r : List Nat) (txt : List Char) (s' : Stats)
       (n m : Nat), utf8Decode r = some txt →
      s.smallest_text.2 = .num n → n ≤ r.length →
      s.largest_text.2 = .num m → r.length ≤ m →
      process_file item s r false = .ok s' →
      s'.smallest_text = s.smallest_text ∧ s'.largest_text = s.largest_text ∧
      s'.smallest_text_content = s.smallest_text_content) := by
  refine ⟨?_, ?_, ?_, ?_⟩
  · intro item s r txt s' hdec hpos hsm hlg hpf
    unfold process_file at hpf
    simp only [Bool.false_eq_true, if_false] at hpf
    rw [hdec] at hpf
    dsimp only at hpf
    injection hpf with h2
    subst h2
    refine ⟨?_, ?_, ?_⟩ <;> simp [hsm, hlg, sizeLt, sizeGt, hpos]
  · intro item s r s' hpos hsm hlg hpf
    unfold process_file at hpf
    simp only [if_true] at hpf
    injection hpf with h2
    subst h2
    constructor <;> simp [hsm, hlg, sizeLt, sizeGt, hpos]
  · intro item s s' hsm hlg hpf
    unfold process_file at hpf
    simp only [Bool.false_eq_true, if_false] at hpf
    dsimp only [utf8Decode, utf8Aux] at hpf
    injection hpf with h2
    subst h2
    constructor <;> simp [hsm, hlg, sizeLt, sizeGt]
  · intro item s r txt s' n m hdec hsm hnm hlg hml hpf
    unfold process_file at hpf
    simp only [Bool.false_eq_true, if_false] at hpf
    rw [hdec] at hpf
    dsimp only at hpf
    injection hpf with h2
    subst h2
    have c1 : sizeLt r.length s.smallest_text.2 = false := by
      rw [hsm]; simp [sizeLt]; omega
    have c2 : sizeGt r.length s.largest_text.2 = false := by
      rw [hlg]; simp [sizeGt]; omega
    refine ⟨?_, ?_, ?_⟩ <;> simp [c1, c2]

/-- Witness for C8: a first one-byte text file seeds both extrema and its
content is retained. -/
theorem C8_extrema_updates_witness :
    stats8W.smallest_text = (pathKey entC8.host entC8.port entC8.selector, .num 1) ∧
    stats8W.largest_text = (pathKey entC8.host entC8.port entC8.selector, .num 1) ∧
    stats8W.smallest_text_content = chs "A" :=
  C8_extrema_updates.1 entC8 initStats [0x41] (chs "A") stats8W (by decide)
    (by decide) rfl rfl (by decide)

/-- Claim C9 (corrected), counterexample: for a selector containing an
underscore, the path recorded in `all_files` is NOT the entry's original
path form — `.replace('_', '/')` is applied to the original path, turning
`h:70/a_b` into `h:70/a/b`. -/
theorem C9_underscore_selector_corrupted :
    (process_file entC9 initStats [0x78] false).map (fun s => s.all_files) =
      .ok [(chs "h:70/a/b", 1)] ∧
    pathKey (chs "h") 70 (chs "/a_b") = chs "h:70/a_b" ∧
    (chs "h:70/a/b" : Str) ≠ chs "h:70/a_b" := by decide

/-- Claim C9 (corrected), amended: every successful `process_file` appends
to `all_files` the full (non-truncated) path `host:port + selector` with
every underscore replaced by a slash, together with the body's byte size;
this equals the original path form exactly when that path contains no
underscore. -/
theorem C9_all_files_path :
    (∀ (item : Entry) (s : Stats) (r : List Nat) (b : Bool) (s' : Stats),
      process_file item s r b = .ok s' →
      s'.all_files = s.all_files ++
        [(replaceUnder (pathKey item.host item.port item.selector), r.length)]) ∧
    (∀ p : Str, '_' ∉ p → replaceUnder p = p) := by
  constructor
  · intro item s r b s' hpf
    unfold process_file at hpf
    cases b with
    | true =>
      simp only [if_true] at hpf
      injection hpf with h2
      subst h2
      rfl
    | false =>
      simp only [Bool.false_eq_true, if_false] at hpf
      cases hd : utf8Decode r with
      | none => rw [hd] at hpf; cases hpf
      | some txt =>
        rw [hd] at hpf
        dsimp only at hpf
        injection hpf with h2
        subst h2
        rfl
  · intro p hp
    induction p with
    | nil => rfl
    | cons c t ih =>
      simp only [List.mem_cons, not_or] at hp
      have hc : ¬ c = '_' := fun hc => hp.1 hc.symm
      simp only [replaceUnder, List.map_cons, if_neg hc]
      have := ih hp.2
      simp only [replaceUnder] at this
      rw [this]

/-- Witness for C9: the concrete underscore selector's recorded path. -/
theorem C9_all_files_path_witness :
    stats9W.all_files = initStats.all_files ++
      [(replaceUnder (pathKey entC9.host entC9.port entC9.selector), 1)] :=
  C9_all_files_path.1 entC9 initStats [0x78] false stats9W (by decide)

/-- Claim C10 (code bug): the listing parser is not total — a line with 4
tab-separated fields whose first field is empty raises `IndexError` at
`parts[0][0]` instead of being discarded. -/
theorem C10_parser_not_total :
    parse_directory (toBytes "\ta\tb\t70") = .error .indexError := by decide
